import Mathlib

set_option maxRecDepth 16384

/-!
Shallow embedding of the Codify backend (`backend/main.py`) and the
identifier-normalization helper of the Streamlit frontend (`app.py`),
together with theorems settling the specification claims.

The `/explain` handler is pure apart from its call to the YouTube search
API; that external interaction is modelled by an explicit environment
`YTEnv` carrying the credential state and the (possibly failing) search
transport.
-/

namespace Codify

/-! ## Python string primitives -/

/-- The line-boundary characters of Python `str.splitlines`:
`\n`, `\r`, `\v`, `\f`, FS, GS, RS, NEL, LINE SEPARATOR, PARAGRAPH SEPARATOR
(`\r\n` is handled as a single boundary in `splitlinesAux`). -/
def isLineBreak (c : Char) : Bool :=
  c = '\n' || c = '\r' || c = '\x0b' || c = '\x0c' ||
  c = '\x1c' || c = '\x1d' || c = '\x1e' || c = '\x85' ||
  c = '\u2028' || c = '\u2029'

/-- Worker for `splitlines`: scans the character list, accumulating the
current line (in reverse) in `acc`; a `\r\n` pair counts as one boundary. -/
def splitlinesAux : List Char → List Char → List String
  | [], acc => if acc.isEmpty then [] else [String.mk acc.reverse]
  | '\r' :: '\n' :: rest, acc => String.mk acc.reverse :: splitlinesAux rest []
  | c :: rest, acc =>
    if isLineBreak c then String.mk acc.reverse :: splitlinesAux rest []
    else splitlinesAux rest (c :: acc)

/-- Python `str.splitlines`: splits at line boundaries, the boundary
characters are dropped, and no trailing empty line is produced for a
string that ends at a boundary (`"".splitlines() == []`). -/
def splitlines (s : String) : List String :=
  splitlinesAux s.data []

/-- Python whitespace (the set recognised by `str.strip()` / `str.isspace()`):
U+0009–U+000D, U+001C–U+001F, space, NEL, NBSP, OGHAM SPACE MARK,
U+2000–U+200A, LINE/PARAGRAPH SEPARATOR, NARROW NBSP, MMSP, IDEOGRAPHIC SPACE. -/
def pyIsSpace (c : Char) : Bool :=
  (9 ≤ c.val && c.val ≤ 13) || (28 ≤ c.val && c.val ≤ 32) ||
  c.val = 0x85 || c.val = 0xA0 || c.val = 0x1680 ||
  (0x2000 ≤ c.val && c.val ≤ 0x200A) || c.val = 0x2028 || c.val = 0x2029 ||
  c.val = 0x202F || c.val = 0x205F || c.val = 0x3000

/-- `isBlank line` iff Python `line.strip()` is empty, i.e. the guard
`if line.strip():` in the handler rejects the line. -/
def isBlank (s : String) : Bool :=
  s.data.all pyIsSpace

/-- Python `p.startswith(q)` (used by `display_youtube_list` in `app.py`). -/
def pyStartsWith (s p : String) : Bool :=
  p.data.isPrefixOf s.data

/-! ## Data model (`backend/main.py` Pydantic models) -/

/-- `Options` after Pydantic validation (all fields present). -/
structure Options where
  safe_run : Bool
  include_youtube : Bool
  max_tokens : Int
deriving Repr, DecidableEq

/-- The raw `options` object of an inbound payload: every field optional. -/
structure RawOptions where
  safe_run : Option Bool
  include_youtube : Option Bool
  max_tokens : Option Int
deriving Repr, DecidableEq

/-- Field defaults of `class Options(BaseModel)`:
`safe_run=False`, `include_youtube=True`, `max_tokens=1024`. -/
def validateOptions (r : RawOptions) : Options :=
  ⟨r.safe_run.getD false, r.include_youtube.getD true, r.max_tokens.getD 1024⟩

/-- Default `Options()` used when the payload omits `options`. -/
def defaultOptions : Options :=
  ⟨false, true, 1024⟩

/-- `ExplainRequest` after Pydantic validation. -/
structure ExplainRequest where
  code : String
  language : String
  user_level : String
  options : Options
deriving Repr, DecidableEq

/-- A raw `/explain` payload: `code`, `language`, `user_level` required
(strings), `options` optional. -/
structure RawExplainRequest where
  code : String
  language : String
  user_level : String
  options : Option RawOptions
deriving Repr, DecidableEq

/-- Pydantic validation of `ExplainRequest`: it is total — `language` is a
plain `str` field (no enum constraint), `code` may be empty, and
`max_tokens` is an unconstrained `int`. -/
def validateRequest (r : RawExplainRequest) : ExplainRequest :=
  ⟨r.code, r.language, r.user_level, (r.options.map validateOptions).getD defaultOptions⟩

/-- One element of the `lines` list built by the handler
(`ExplainLine` model: `line_number`, `code`, `explanation`). -/
structure ExplainLine where
  line_number : Nat
  code : String
  explanation : String
deriving Repr, DecidableEq

/-- One entry of the `videos` list built by `youtube_search`. -/
structure Video where
  title : String
  video_id : String
  url : String
deriving Repr, DecidableEq

/-- The `ExplainResponse` model. -/
structure ExplainResponse where
  summary : String
  lines : List ExplainLine
  related_videos : List Video
deriving Repr, DecidableEq

/-- An `HTTPException` as raised by the handler. -/
structure HttpError where
  status : Nat
  detail : String
deriving Repr, DecidableEq

/-- The only error the handler raises: `HTTPException(500, "Internal server error")`. -/
def internalServerError : HttpError :=
  ⟨500, "Internal server error"⟩

/-! ## YouTube search (`youtube_search` in `backend/main.py`) -/

/-- An item of the API response, already projected to the two fields the
code reads (`item["snippet"]["title"]`, `item["id"]["videoId"]`). -/
structure YTItem where
  title : String
  videoId : String
deriving Repr, DecidableEq

/-- The ambient state `youtube_search` depends on: the `YOUTUBE_API_KEY`
environment variable, whether the `googleapiclient` import succeeded
(`youtube_build is not None`), and the search transport — everything the
`try` block does up to and including `req.execute()`, which either raises
(`Except.error`) or returns the response items. -/
structure YTEnv where
  apiKey : Option String
  buildAvailable : Bool
  search : String → Nat → Except String (List YTItem)

/-- Python truthiness of the key guard: `not YOUTUBE_API_KEY` is `True`
when the variable is unset (`None`) or the empty string. -/
def keyFalsy : Option String → Bool
  | none => true
  | some s => s.isEmpty

/-- The canonical watch URL built from a bare video id. -/
def watchUrl (id : String) : String :=
  "https://www.youtube.com/watch?v=" ++ id

/-- `youtube_search(query, max_results)`: returns `[]` when credentials or
the client library are missing, maps response items to video dicts, and
converts any exception from the `try` block to `[]`. -/
def youtube_search (env : YTEnv) (query : String) (maxResults : Nat) : List Video :=
  if keyFalsy env.apiKey || !env.buildAvailable then []
  else
    match env.search query maxResults with
    | Except.error _ => []
    | Except.ok items => items.map (fun it => ⟨it.title, it.videoId, watchUrl it.videoId⟩)

/-! ## The `/explain` handler -/

/-- A helper description of the explanation string f-string
`f"Mock explanation for line {i}"`. -/
def mkExplanation (i : Nat) : String :=
  "Mock explanation for line " ++ toString i

/-- The `lines` list built by the handler loop:
`for i, line in enumerate(req.code.splitlines(), start=1): if line.strip(): ...`. -/
def explainLines (code : String) : List ExplainLine :=
  (List.enumFrom 1 (splitlines code)).filterMap
    (fun p => if isBlank p.2 then none else some ⟨p.1, p.2, mkExplanation p.1⟩)

/-- The numbered non-blank lines (the `NumberedLine` sequence of the spec's
LineIndexer): the `(i, line)` pairs the handler loop retains. -/
def lineIndex (code : String) : List (Nat × String) :=
  (List.enumFrom 1 (splitlines code)).filter (fun p => !isBlank p.2)

/-- The `/explain` handler body. Inside the `try`, the only expression that
can raise is `req.code.splitlines()[0]` (IndexError on an empty list), and
it is evaluated only when `include_youtube` is set; the surrounding
`except` turns any exception into `HTTPException(500, "Internal server error")`. -/
def explain (env : YTEnv) (req : ExplainRequest) : Except HttpError ExplainResponse :=
  let lines := explainLines req.code
  let videosE : Except Unit (List Video) :=
    if req.options.include_youtube then
      match (splitlines req.code).head? with
      | none => Except.error ()
      | some l => Except.ok (youtube_search env (l.take 50) 3)
    else Except.ok []
  match videosE with
  | Except.error _ => Except.error internalServerError
  | Except.ok videos =>
    Except.ok ⟨"Explained " ++ toString lines.length ++ " lines.", lines, videos⟩

/-- The endpoint: Pydantic validation (total) followed by the handler. -/
def explainEndpoint (env : YTEnv) (raw : RawExplainRequest) : Except HttpError ExplainResponse :=
  explain env (validateRequest raw)

/-! ## Frontend identifier normalization (`display_youtube_list` in `app.py`) -/

/-- The normalization applied by `display_youtube_list` to a non-empty
identifier: `video_id if video_id.startswith("http") else watch?v= url`. -/
def normalizeIdentifier (id : String) : String :=
  if pyStartsWith id "http" then id else watchUrl id

/-- Modelled from the spec: "an identifier already in full-URL form" — a
string beginning with the scheme prefix of an absolute http(s) URL. Used
only to compare the spec's notion with the code's `startswith("http")` test. -/
def isFullUrl (s : String) : Bool :=
  pyStartsWith s "http://" || pyStartsWith s "https://"

/-- Modelled from the spec: "first non-empty line of the submission,
truncated to at most 50 characters" (§4.4 query derivation). Used only to
compare with the code's `req.code.splitlines()[0][:50]`. -/
def specQuery (code : String) : Option String :=
  ((splitlines code).filter (fun l => !l.isEmpty)).head?.map (fun l => l.take 50)

/-- The query the handler actually passes: `req.code.splitlines()[0][:50]`
(`none` when the indexing raises). -/
def codeQuery (code : String) : Option String :=
  (splitlines code).head?.map (fun l => l.take 50)

/-! ## Concrete environments used in witnesses and counterexamples -/

/-- An environment with no API key configured (the transport would succeed,
but the guard returns before reaching it). -/
def envAbsent : YTEnv :=
  ⟨none, true, fun _ _ => Except.ok []⟩

/-- An environment whose transport always raises. -/
def envErr : YTEnv :=
  ⟨some "key", true, fun _ _ => Except.error "transport error"⟩

/-- A fully configured environment whose transport echoes the query it was
given as the title of a single result: the response then records exactly
which query reached the provider. -/
def echoEnv : YTEnv :=
  ⟨some "key", true, fun q _ => Except.ok [⟨q, "vid"⟩]⟩

/-- The supported-language set (the frontend selectbox in `app.py` and the
spec's language enum). -/
def supportedLanguages : List String :=
  ["python", "javascript", "java", "cpp", "csharp", "go"]

end Codify

namespace Codify

/-! ## General lemmas -/

/-- Membership in `List.enumFrom`: the pair `(k, x)` occurs iff `x` sits at
offset `k - n` of the list and `n ≤ k`. -/
theorem mem_enumFrom_iff {α : Type} (l : List α) (n k : ℕ) (x : α) :
    (k, x) ∈ List.enumFrom n l ↔ n ≤ k ∧ l.get? (k - n) = some x := by
  induction l generalizing n with
  | nil => simp [List.enumFrom]
  | cons a l ih =>
    simp only [List.enumFrom, List.mem_cons, Prod.mk.injEq, ih]
    constructor
    · rintro (⟨rfl, rfl⟩ | ⟨h1, h2⟩)
      · simp
      · refine ⟨by omega, ?_⟩
        have hk : k - n = (k - (n + 1)) + 1 := by omega
        rw [hk]
        simpa using h2
    · rintro ⟨h1, h2⟩
      rcases Nat.eq_or_lt_of_le h1 with rfl | hlt
      · left
        simp only [Nat.sub_self, List.get?] at h2
        exact ⟨rfl, (Option.some.injEq _ _ ▸ h2).symm⟩
      · right
        refine ⟨hlt, ?_⟩
        have hk : k - n = (k - (n + 1)) + 1 := by omega
        rw [hk] at h2
        simpa using h2

/-- The first components of `List.enumFrom` are strictly increasing. -/
theorem enumFrom_pairwise_fst {α : Type} (l : List α) (n : ℕ) :
    List.Pairwise (fun p q : ℕ × α => p.1 < q.1) (List.enumFrom n l) := by
  induction l generalizing n with
  | nil => simp [List.enumFrom]
  | cons a l ih =>
    refine List.Pairwise.cons ?_ (ih (n + 1))
    intro p hp
    have := (mem_enumFrom_iff l (n + 1) p.1 p.2).mp (by simpa using hp)
    omega

set_option maxHeartbeats 2000000 in
/-- `splitlinesAux` never returns the empty list unless both inputs are empty. -/
theorem splitlinesAux_ne_nil (l acc : List Char) (h : l ≠ [] ∨ acc ≠ []) :
    splitlinesAux l acc ≠ [] := by
  induction l, acc using splitlinesAux.induct with
  | case1 acc hacc =>
    rcases h with h | h
    · exact absurd rfl h
    · exact absurd (List.isEmpty_iff.mp hacc) h
  | case2 acc hacc =>
    rw [splitlinesAux.eq_1]
    simp [hacc]
  | case3 rest acc ih =>
    rw [splitlinesAux.eq_2]
    simp
  | case4 c rest acc hpat hbrk ih =>
    rw [splitlinesAux.eq_3 acc c rest hpat]
    simp [hbrk]
  | case5 c rest acc hpat hbrk ih =>
    rw [splitlinesAux.eq_3 acc c rest hpat]
    simp only [hbrk, if_neg]
    exact ih (Or.inr (by simp))

/-- A non-empty source has at least one line (`splitlines s = [] ↔ s = ""`). -/
theorem splitlines_ne_nil (s : String) (h : s ≠ "") : splitlines s ≠ [] := by
  refine splitlinesAux_ne_nil s.data [] (Or.inl ?_)
  intro hd
  apply h
  cases s
  simp_all

/-- The handler's `lines` list is the numbered-line index decorated with the
mock explanation text. -/
theorem explainLines_eq_map (code : String) :
    explainLines code =
      (lineIndex code).map (fun p => ⟨p.1, p.2, mkExplanation p.1⟩) := by
  unfold explainLines lineIndex
  generalize List.enumFrom 1 (splitlines code) = l
  induction l with
  | nil => rfl
  | cons a l ih =>
    by_cases h : isBlank a.2 <;>
      simp [List.filterMap_cons, List.filter_cons, h, ih]

/-- Filtering an enumerated list on the payload keeps as many elements as
filtering the list itself. -/
theorem enumFrom_filter_length {α : Type} (q : α → Bool) (l : List α) (n : ℕ) :
    ((List.enumFrom n l).filter (fun p => q p.2)).length = (l.filter q).length := by
  induction l generalizing n with
  | nil => rfl
  | cons a l ih =>
    by_cases h : q a <;> simp [List.enumFrom, List.filter_cons, h, ih]

/-- The index has exactly one entry per non-blank line of the source. -/
theorem lineIndex_length (code : String) :
    (lineIndex code).length =
      ((splitlines code).filter (fun l => !isBlank l)).length :=
  enumFrom_filter_length (fun x => !isBlank x) (splitlines code) 1

/-- With videos enabled and a non-empty line list, the handler succeeds and
passes the first line, truncated to 50 characters, to the video search. -/
theorem explain_ok_shape (env : YTEnv) (req : ExplainRequest) (l0 : String)
    (rest : List String) (hinc : req.options.include_youtube = true)
    (hsp : splitlines req.code = l0 :: rest) :
    explain env req =
      Except.ok ⟨"Explained " ++ toString (explainLines req.code).length ++ " lines.",
        explainLines req.code, youtube_search env (l0.take 50) 3⟩ := by
  simp [explain, hinc, hsp]

/-- With videos disabled, the handler succeeds and never consults the
environment: `related_videos` is the literal empty list. -/
theorem explain_noyt (env : YTEnv) (req : ExplainRequest)
    (h : req.options.include_youtube = false) :
    explain env req =
      Except.ok ⟨"Explained " ++ toString (explainLines req.code).length ++ " lines.",
        explainLines req.code, []⟩ := by
  simp [explain, h]

/-- With videos enabled and an empty source, the indexing of the first line
raises and the handler returns the 500 error. -/
theorem explain_empty (env : YTEnv) (req : ExplainRequest)
    (hinc : req.options.include_youtube = true) (hc : req.code = "") :
    explain env req = Except.error internalServerError := by
  have hsp : splitlines req.code = [] := by rw [hc]; rfl
  simp [explain, hinc, hsp]

/-- The credential guard of `youtube_search`: missing key or missing client
library short-circuits to the empty list. -/
theorem youtube_search_guard (env : YTEnv) (q : String) (n : ℕ)
    (h : keyFalsy env.apiKey = true ∨ env.buildAvailable = false) :
    youtube_search env q n = [] := by
  rcases h with h | h <;> simp [youtube_search, h]

/-- A raising transport is converted to the empty list. -/
theorem youtube_search_error (env : YTEnv) (q : String) (n : ℕ) (e : String)
    (h : env.search q n = Except.error e) :
    youtube_search env q n = [] := by
  unfold youtube_search
  by_cases hg : (keyFalsy env.apiKey || !env.buildAvailable) = true
  · simp [hg]
  · simp [hg, h]

/-- Every video built by `youtube_search` carries the canonical watch URL
synthesized from its bare id. -/
theorem youtube_search_url (env : YTEnv) (q : String) (n : ℕ) :
    ∀ v ∈ youtube_search env q n, v.url = watchUrl v.video_id := by
  intro v hv
  unfold youtube_search at hv
  by_cases hg : (keyFalsy env.apiKey || !env.buildAvailable) = true
  · simp [hg] at hv
  · rw [if_neg hg] at hv
    cases hsr : env.search q n with
    | error e => rw [hsr] at hv; simp at hv
    | ok items =>
      rw [hsr] at hv
      obtain ⟨it, _, rfl⟩ := List.mem_map.mp hv
      rfl

/-- `pyStartsWith` tested positively is list-prefix of the character data. -/
theorem pyStartsWith_iff (s p : String) : pyStartsWith s p = true ↔ p.data <+: s.data := by
  unfold pyStartsWith
  exact List.isPrefixOf_iff_prefix

/-! ## Claim theorems -/

/-- C1: the spec requires `/explain` to reject an empty or all-whitespace
source with `ValidationError(EmptySubmission)` before any provider runs.
The handler has no such validation: with default options an empty source
crashes on `req.code.splitlines()[0]` and is answered with the generic
HTTP 500, and an all-whitespace source (here a single space) is processed
normally — its response even contains the video provider's output for the
query `" "`, so provider code is reached. -/
theorem C1_empty_submission_behavior :
    explain envAbsent ⟨"", "python", "beginner", defaultOptions⟩ =
      Except.error internalServerError ∧
    explain echoEnv ⟨" ", "python", "beginner", defaultOptions⟩ =
      Except.ok ⟨"Explained 0 lines.", [], [⟨" ", "vid", watchUrl "vid"⟩]⟩ :=
  ⟨rfl, rfl⟩

/-- C2 counterexample: with credentials absent (`envAbsent`) the claim
promises that a `/explain` request succeeds with empty `related_videos`,
but the request with empty source fails with HTTP 500 — the failure is the
handler's own first-line indexing, independent of the video provider. -/
theorem C2_failsoft_counterexample :
    keyFalsy envAbsent.apiKey = true ∧
    explain envAbsent ⟨"", "python", "beginner", defaultOptions⟩ =
      Except.error internalServerError :=
  ⟨rfl, rfl⟩

/-- C2 (amended): `youtube_search` returns `[]` whenever credentials or the
client library are missing, and whenever the transport raises; and a
`/explain` request in such an environment succeeds with
`related_videos = []` provided its source is non-empty. -/
theorem C2_failsoft :
    (∀ (env : YTEnv) (q : String) (n : ℕ),
      keyFalsy env.apiKey = true ∨ env.buildAvailable = false →
      youtube_search env q n = []) ∧
    (∀ (env : YTEnv) (q : String) (n : ℕ) (e : String),
      env.search q n = Except.error e → youtube_search env q n = []) ∧
    (∀ (env : YTEnv) (req : ExplainRequest),
      (keyFalsy env.apiKey = true ∨ env.buildAvailable = false ∨
        ∀ q n, ∃ e, env.search q n = Except.error e) →
      req.code ≠ "" →
      explain env req =
        Except.ok ⟨"Explained " ++ toString (explainLines req.code).length ++ " lines.",
          explainLines req.code, []⟩) := by
  refine ⟨youtube_search_guard, youtube_search_error, ?_⟩
  intro env req hfail hne
  have hys : ∀ q n, youtube_search env q n = [] := by
    intro q n
    rcases hfail with h | h | h
    · exact youtube_search_guard env q n (Or.inl h)
    · exact youtube_search_guard env q n (Or.inr h)
    · obtain ⟨e, he⟩ := h q n
      exact youtube_search_error env q n e he
  by_cases hinc : req.options.include_youtube = true
  · obtain ⟨l0, rest, hsp⟩ := List.exists_cons_of_ne_nil (splitlines_ne_nil req.code hne)
    rw [explain_ok_shape env req l0 rest hinc hsp, hys]
  · exact explain_noyt env req (by simpa using hinc)

/-- C2 witness: the amended statement applied to the key-less environment,
to the raising environment, and to a one-line request in the raising
environment. -/
theorem C2_failsoft_witness :
    youtube_search envAbsent "q" 3 = [] ∧
    youtube_search envErr "q" 3 = [] ∧
    explain envErr ⟨"x", "python", "beginner", defaultOptions⟩ =
      Except.ok ⟨"Explained " ++ toString (explainLines "x").length ++ " lines.",
        explainLines "x", []⟩ :=
  ⟨C2_failsoft.1 envAbsent "q" 3 (Or.inl rfl),
   C2_failsoft.2.1 envErr "q" 3 "transport error" rfl,
   C2_failsoft.2.2 envErr ⟨"x", "python", "beginner", defaultOptions⟩
     (Or.inr (Or.inr fun _ _ => ⟨"transport error", rfl⟩)) (by decide)⟩

/-- C3: the numbered-line index of a source contains `(k, t)` exactly when
`t` is the `k`-th line (1-based) of the newline split and `t` is not blank;
the numbering is strictly increasing (source order); and the spec's
two-line-with-blank example evaluates to exactly the two numbered lines
`(1, "print('hi')")` and `(3, "print('bye')")`. -/
theorem C3_line_indexing :
    (∀ (s : String) (k : ℕ) (t : String),
      (k, t) ∈ lineIndex s ↔
        1 ≤ k ∧ (splitlines s).get? (k - 1) = some t ∧ isBlank t = false) ∧
    (∀ s : String, List.Pairwise (fun p q : ℕ × String => p.1 < q.1) (lineIndex s)) ∧
    lineIndex "print(\x27hi\x27)\n\nprint(\x27bye\x27)" =
      [(1, "print(\x27hi\x27)"), (3, "print(\x27bye\x27)")] := by
  refine ⟨?_, ?_, by decide⟩
  · intro s k t
    unfold lineIndex
    rw [List.mem_filter, mem_enumFrom_iff]
    simp [and_assoc]
  · intro s
    exact List.Pairwise.sublist (List.filter_sublist _) (enumFrom_pairwise_fst _ 1)

/-- C3 witness: the characterization applied to the concrete source
`"a\n\nb"` at position 1. -/
theorem C3_line_indexing_witness :
    1 ≤ 1 ∧ (splitlines "a\n\nb").get? 0 = some "a" ∧ isBlank "a" = false :=
  (C3_line_indexing.1 "a\n\nb" 1 "a").mp (by decide)

/-- C4 counterexample: the claim says the video query is the *first
non-empty* line truncated to 50 characters. For the source `"\nabc"` the
first non-empty line is `"abc"`, but the handler passes
`req.code.splitlines()[0][:50] = ""`: the echoing environment records the
empty query in the response title. -/
theorem C4_query_counterexample :
    specQuery "\nabc" = some "abc" ∧
    codeQuery "\nabc" = some "" ∧
    explain echoEnv ⟨"\nabc", "python", "beginner", defaultOptions⟩ =
      Except.ok ⟨"Explained 1 lines.", [⟨2, "abc", mkExplanation 2⟩],
        [⟨"", "vid", watchUrl "vid"⟩]⟩ ∧
    (("" : String) == "abc") = false :=
  ⟨rfl, rfl, rfl, rfl⟩

/-- C4 (amended): the query passed to the video provider is the *first*
line of the source (blank or not), truncated to at most 50 characters. -/
theorem C4_query_first_line :
    (∀ (env : YTEnv) (req : ExplainRequest) (l0 : String) (rest : List String),
      req.options.include_youtube = true →
      splitlines req.code = l0 :: rest →
      explain env req =
        Except.ok ⟨"Explained " ++ toString (explainLines req.code).length ++ " lines.",
          explainLines req.code, youtube_search env (l0.take 50) 3⟩) ∧
    (∀ s : String, (s.take 50).length ≤ 50) := by
  refine ⟨explain_ok_shape, ?_⟩
  intro s
  rw [← String.length_data, String.data_take]
  exact List.length_take_le 50 s.data

/-- C4 witness: the amended statement applied to a two-line source. -/
theorem C4_query_first_line_witness :
    explain envAbsent ⟨"ab\ncd", "python", "beginner", defaultOptions⟩ =
      Except.ok ⟨"Explained " ++ toString (explainLines "ab\ncd").length ++ " lines.",
        explainLines "ab\ncd", youtube_search envAbsent ("ab".take 50) 3⟩ ∧
    ("ab".take 50).length ≤ 50 :=
  ⟨C4_query_first_line.1 envAbsent ⟨"ab\ncd", "python", "beginner", defaultOptions⟩
     "ab" ["cd"] rfl (by decide),
   C4_query_first_line.2 "ab"⟩

/-- C5 counterexample: the claim promises that *every* bare identifier is
expanded to the canonical watch URL, but the frontend's test is
`startswith("http")`: the legal bare 11-character id `"httpqrstuvw"` is not
in full-URL form yet is returned verbatim instead of being expanded. -/
theorem C5_roundtrip_counterexample :
    isFullUrl "httpqrstuvw" = false ∧
    normalizeIdentifier "httpqrstuvw" = "httpqrstuvw" ∧
    (normalizeIdentifier "httpqrstuvw" == watchUrl "httpqrstuvw") = false :=
  ⟨rfl, rfl, rfl⟩

/-- C5 (amended): identifiers beginning with `"http"` — in particular every
full `http://` or `https://` URL — are returned unchanged, identifiers not
beginning with `"http"` are expanded to the canonical watch URL, and every
video synthesized by the backend carries the watch URL of its bare id. -/
theorem C5_roundtrip :
    (∀ s : String, isFullUrl s = true → normalizeIdentifier s = s) ∧
    (∀ s : String, pyStartsWith s "http" = false → normalizeIdentifier s = watchUrl s) ∧
    (∀ s : String, pyStartsWith s "http" = true → normalizeIdentifier s = s) ∧
    (∀ (env : YTEnv) (q : String) (n : ℕ) (v : Video),
      v ∈ youtube_search env q n → v.url = watchUrl v.video_id) := by
  have hfull : ∀ s : String, isFullUrl s = true → pyStartsWith s "http" = true := by
    intro s h
    rcases Bool.or_eq_true_iff.mp h with h | h <;>
      exact (pyStartsWith_iff s "http").mpr
        (List.IsPrefix.trans (by decide) ((pyStartsWith_iff s _).mp h))
  refine ⟨?_, ?_, ?_, fun env q n v hv => youtube_search_url env q n v hv⟩
  · intro s h
    simp [normalizeIdentifier, hfull s h]
  · intro s h
    simp [normalizeIdentifier, h]
  · intro s h
    simp [normalizeIdentifier, h]

/-- C5 witness: the amended statement applied to a full URL, a plain bare
id, a bare id that begins with `"http"`, and a backend-built video. -/
theorem C5_roundtrip_witness :
    normalizeIdentifier "https://www.youtube.com/watch?v=abc" =
      "https://www.youtube.com/watch?v=abc" ∧
    normalizeIdentifier "abc" = watchUrl "abc" ∧
    normalizeIdentifier "httpZZ" = "httpZZ" ∧
    (⟨"q", "vid", watchUrl "vid"⟩ : Video).url = watchUrl "vid" :=
  ⟨C5_roundtrip.1 "https://www.youtube.com/watch?v=abc" (by decide),
   C5_roundtrip.2.1 "abc" (by decide),
   C5_roundtrip.2.2.1 "httpZZ" (by decide),
   C5_roundtrip.2.2.2 echoEnv "q" 3 ⟨"q", "vid", watchUrl "vid"⟩ (by decide)⟩

/-- C6: for a non-empty source, every line explanation references a
`(line_number, code)` pair present in the numbered-line index, the number
of explanations is bounded by the index size, and the index has exactly one
entry per non-blank line. -/
theorem C6_explanations_match_index :
    ∀ s : String, s ≠ "" →
      (∀ e ∈ explainLines s, (e.line_number, e.code) ∈ lineIndex s) ∧
      (explainLines s).length ≤ (lineIndex s).length ∧
      (lineIndex s).length = ((splitlines s).filter (fun l => !isBlank l)).length := by
  intro s _
  refine ⟨?_, ?_, lineIndex_length s⟩
  · intro e he
    rw [explainLines_eq_map] at he
    obtain ⟨p, hp, rfl⟩ := List.mem_map.mp he
    simpa using hp
  · rw [explainLines_eq_map, List.length_map]

/-- C6 witness: the bound applied to the one-line source `"x"`. -/
theorem C6_explanations_match_index_witness :
    (explainLines "x").length ≤ (lineIndex "x").length :=
  (C6_explanations_match_index "x" (by decide)).2.1

/-- C7 counterexample: the claim says `max_tokens` is clamped into
`[256, 4096]`; validation of `max_tokens = 10` yields `10`, strictly below
the claimed lower bound. -/
theorem C7_clamp_counterexample :
    (validateOptions ⟨none, none, some 10⟩).max_tokens = 10 ∧
    (validateOptions ⟨none, none, some 10⟩).max_tokens < 256 :=
  ⟨rfl, by decide⟩

/-- C7 (amended): `max_tokens` is passed through validation unchanged
(defaulting to 1024 when absent) — it is neither clamped nor rejected —
and the `/explain` handler's result does not depend on it (nor on
`safe_run`). -/
theorem C7_no_clamp :
    (∀ r : RawOptions, (validateOptions r).max_tokens = r.max_tokens.getD 1024) ∧
    (∀ (raw : RawExplainRequest) (o : RawOptions), raw.options = some o →
      (validateRequest raw).options.max_tokens = o.max_tokens.getD 1024) ∧
    (∀ (env : YTEnv) (c l u : String) (sr sr' iy : Bool) (mt mt' : Int),
      explain env ⟨c, l, u, ⟨sr, iy, mt⟩⟩ = explain env ⟨c, l, u, ⟨sr', iy, mt'⟩⟩) := by
  refine ⟨fun r => rfl, ?_, fun env c l u sr sr' iy mt mt' => rfl⟩
  intro raw o h
  simp [validateRequest, h, validateOptions]

/-- C7 witness: an out-of-range budget of 9999 survives validation both at
the options and at the request level, and two handler runs differing only
in `max_tokens` and `safe_run` coincide. -/
theorem C7_no_clamp_witness :
    (validateOptions ⟨none, none, some 9999⟩).max_tokens = 9999 ∧
    (validateRequest ⟨"x", "python", "beginner",
      some ⟨none, none, some 9999⟩⟩).options.max_tokens = 9999 ∧
    explain envAbsent ⟨"x", "python", "beginner", ⟨false, true, 1⟩⟩ =
      explain envAbsent ⟨"x", "python", "beginner", ⟨true, true, 99999⟩⟩ :=
  ⟨C7_no_clamp.1 ⟨none, none, some 9999⟩,
   C7_no_clamp.2.1 ⟨"x", "python", "beginner", some ⟨none, none, some 9999⟩⟩
     ⟨none, none, some 9999⟩ rfl,
   C7_no_clamp.2.2 envAbsent "x" "python" "beginner" false true true 1 99999⟩

/-- C8 counterexample: `"brainfuck"` is outside the supported language set,
yet the endpoint validates the request and answers 200 — with the video
provider demonstrably invoked — instead of an `UnsupportedLanguage`
validation error. -/
theorem C8_language_counterexample :
    (supportedLanguages.contains "brainfuck") = false ∧
    explainEndpoint echoEnv ⟨"print(1)", "brainfuck", "beginner", none⟩ =
      Except.ok ⟨"Explained 1 lines.", [⟨1, "print(1)", mkExplanation 1⟩],
        [⟨"print(1)", "vid", watchUrl "vid"⟩]⟩ :=
  ⟨rfl, rfl⟩

/-- C8 (amended): the backend performs no language validation at all — the
declared language is accepted verbatim by validation, and the handler's
result is independent of the language field, so requests outside the
supported set are processed like any other. -/
theorem C8_no_language_validation :
    (∀ raw : RawExplainRequest, (validateRequest raw).language = raw.language) ∧
    (∀ (env : YTEnv) (c u : String) (o : Options) (l l' : String),
      explain env ⟨c, l, u, o⟩ = explain env ⟨c, l', u, o⟩) :=
  ⟨fun _ => rfl, fun _ _ _ _ _ _ => rfl⟩

/-- C9 counterexample: for the empty source, the request with
`include_youtube = false` succeeds with summary `"Explained 0 lines."`,
while the identical request with videos enabled fails with HTTP 500 — so
"summary and lines are computed exactly as for the same request with
videos enabled" fails. -/
theorem C9_videos_disabled_counterexample :
    explain envAbsent ⟨"", "python", "beginner", ⟨false, false, 1024⟩⟩ =
      Except.ok ⟨"Explained 0 lines.", [], []⟩ ∧
    explain envAbsent ⟨"", "python", "beginner", ⟨false, true, 1024⟩⟩ =
      Except.error internalServerError :=
  ⟨rfl, rfl⟩

/-- C9 (amended): with `include_youtube = false` the video environment is
never consulted, the response's `related_videos` is empty, and the summary
and lines agree with those of the same request with videos enabled
whenever that enabled request succeeds (for an empty source it does not —
it fails with HTTP 500 while the disabled request returns 200). -/
theorem C9_videos_disabled :
    (∀ (env env' : YTEnv) (req : ExplainRequest),
      req.options.include_youtube = false → explain env req = explain env' req) ∧
    (∀ (env : YTEnv) (req : ExplainRequest),
      req.options.include_youtube = false →
      explain env req =
        Except.ok ⟨"Explained " ++ toString (explainLines req.code).length ++ " lines.",
          explainLines req.code, []⟩) ∧
    (∀ (env : YTEnv) (c l u : String) (sr sr' : Bool) (mt mt' : Int)
      (resp : ExplainResponse),
      explain env ⟨c, l, u, ⟨sr, true, mt⟩⟩ = Except.ok resp →
      explain env ⟨c, l, u, ⟨sr', false, mt'⟩⟩ =
        Except.ok ⟨resp.summary, resp.lines, []⟩) := by
  refine ⟨?_, fun env req h => explain_noyt env req h, ?_⟩
  · intro env env' req h
    rw [explain_noyt env req h, explain_noyt env' req h]
  · intro env c l u sr sr' mt mt' resp h
    cases hsp : splitlines c with
    | nil =>
      rw [explain_empty env ⟨c, l, u, ⟨sr, true, mt⟩⟩ rfl] at h
      · exact absurd h (by simp)
      · have : c = "" := by
          by_contra hc
          exact splitlines_ne_nil c hc hsp
        exact this
    | cons l0 rest =>
      rw [explain_ok_shape env ⟨c, l, u, ⟨sr, true, mt⟩⟩ l0 rest rfl hsp] at h
      injection h with h
      subst h
      exact explain_noyt env ⟨c, l, u, ⟨sr', false, mt'⟩⟩ rfl

/-- C9 witness: the amended statement applied to `envAbsent`/`envErr` and
the one-line source `"x"`. -/
theorem C9_videos_disabled_witness :
    explain envAbsent ⟨"x", "python", "beginner", ⟨false, false, 1024⟩⟩ =
      explain envErr ⟨"x", "python", "beginner", ⟨false, false, 1024⟩⟩ ∧
    explain envAbsent ⟨"x", "python", "beginner", ⟨false, false, 1024⟩⟩ =
      Except.ok ⟨"Explained " ++ toString (explainLines "x").length ++ " lines.",
        explainLines "x", []⟩ ∧
    explain envAbsent ⟨"x", "python", "beginner", ⟨false, false, 1024⟩⟩ =
      Except.ok ⟨"Explained 1 lines.", [⟨1, "x", mkExplanation 1⟩], []⟩ :=
  ⟨C9_videos_disabled.1 envAbsent envErr ⟨"x", "python", "beginner", ⟨false, false, 1024⟩⟩ rfl,
   C9_videos_disabled.2.1 envAbsent ⟨"x", "python", "beginner", ⟨false, false, 1024⟩⟩ rfl,
   C9_videos_disabled.2.2 envAbsent "x" "python" "beginner" false false 1024 1024
     ⟨"Explained 1 lines.", [⟨1, "x", mkExplanation 1⟩], []⟩ rfl⟩

/-- C10: a request with empty source and `include_youtube` at its default
`true` is answered with HTTP 500 and detail `"Internal server error"` (the
first-line indexing raises inside the handler), for every environment; and
a payload omitting `options` indeed defaults `include_youtube` to `true`. -/
theorem C10_empty_source_internal_error :
    ∀ (env : YTEnv) (l u : String) (o : Options), o.include_youtube = true →
      explain env ⟨"", l, u, o⟩ = Except.error internalServerError ∧
      internalServerError = ⟨500, "Internal server error"⟩ ∧
      (validateRequest ⟨"", l, u, none⟩).options.include_youtube = true := by
  intro env l u o h
  exact ⟨explain_empty env ⟨"", l, u, o⟩ h rfl, rfl, rfl⟩

/-- C10 witness: the statement applied to the key-less environment and the
default options. -/
theorem C10_empty_source_internal_error_witness :
    explain envAbsent ⟨"", "python", "beginner", defaultOptions⟩ =
      Except.error internalServerError ∧
    internalServerError = ⟨500, "Internal server error"⟩ ∧
    (validateRequest ⟨"", "python", "beginner", none⟩).options.include_youtube = true :=
  C10_empty_source_internal_error envAbsent "python" "beginner" defaultOptions rfl

end Codify
